import Mathlib

/-!
Verification development for the assertion polling engine and the
test-result ledger / report coordinator of this repository.

Sources embedded:
- `src/lib/reporter/index.js` (class `Reporter`): `shouldIncrementTotalCount`,
  `currentTest`, `registerFailed`, `logAssertResult`, `getFailureMessage`,
  `unitTestsMode`, `shouldTakeFailureScreenshot`, `saveFailureScreenshot`.
- `src/lib/api/expect/text.js` (`TextAssertion`): the `elementFound`,
  `elementNotFound` hooks.

Parts of the repository that the claims depend on but that are not among the
sources (`results.js`, the expect base class `_baseAssertion.js`, the suite
retry registry) are modelled from the specification; every such definition
carries a doc comment starting with "Modelled from the spec:".

JavaScript field values that may be `undefined` are embedded as `Option`;
JS truthiness of such a flag is `jsTruthy`.
-/

/-- Truthiness of a JS boolean-or-undefined value: only a defined `true` is
truthy. -/
def jsTruthy : Option Bool → Bool
  | some b => b
  | none => false

/-- Embedding of `Utils.isUndefined`: the value is `undefined`. -/
def isUndefined (v : Option Bool) : Bool := v.isNone

/-- Error object metadata read by the reporter (`err.incrementErrorCount`,
`err.incrementErrorsNo`, `err.detailedLogging`), each possibly undefined. -/
structure ErrObj where
  incrementErrorCount : Option Bool
  incrementErrorsNo : Option Bool
  detailedLogging : Option Bool
  deriving DecidableEq

/-- A test case as known to the ledger (`testcase.testName`). -/
structure TestCase where
  testName : String
  deriving DecidableEq

/-- One entry of the assertion audit log (`{fullMsg, failure, stackTrace}`). -/
structure AssertionEntry where
  fullMsg : String
  failure : Bool
  stackTrace : String
  deriving DecidableEq

/-- Modelled from the spec: the per-test result record owned by the ledger
(`results.js` is not among the sources). Section 3 of the spec: counts
`passed/failed/errors/skipped`, the append-only `assertions` and
`screenshots` logs, the replaced-not-merged `lastError`, and the attempt
index `tests` used for screenshot file naming. -/
structure TestResultData where
  passed : Nat
  failed : Nat
  errors : Nat
  skipped : Nat
  tests : Nat
  assertions : List AssertionEntry
  screenshots : List String
  lastError : Option ErrObj
  deriving DecidableEq

/-- Modelled from the spec: the `TestResults` ledger (`results.js` is not
among the sources). It owns the current test case pointer and the current
test's result record, plus the module/group keys read by the reporter's
`currentTest` getter. -/
structure TestResultsLedger where
  moduleKey : String
  groupName : String
  currentTest : Option TestCase
  currentTestResult : TestResultData
  deriving DecidableEq

/-- Modelled from the spec: `setLastError` replaces (does not merge) the
current test result's last error and returns the ledger. -/
def TestResultsLedger.setLastError (l : TestResultsLedger) (err : ErrObj) :
    TestResultsLedger :=
  { l with currentTestResult := { l.currentTestResult with lastError := some err } }

/-- Modelled from the spec: `incrementFailedCount(shouldCount)` increments
`counts.failed` on the current test result only if `shouldCount` is true. -/
def TestResultsLedger.incrementFailedCount (l : TestResultsLedger)
    (shouldCount : Bool) : TestResultsLedger :=
  if shouldCount then
    { l with currentTestResult :=
        { l.currentTestResult with failed := l.currentTestResult.failed + 1 } }
  else l

/-- Modelled from the spec: `logAssertion` appends to the current test
result's assertion log unconditionally (the audit trail is never
suppressed). -/
def TestResultsLedger.logAssertion (l : TestResultsLedger)
    (entry : AssertionEntry) : TestResultsLedger :=
  { l with currentTestResult :=
      { l.currentTestResult with
          assertions := l.currentTestResult.assertions ++ [entry] } }

/-- Modelled from the spec: `logScreenshotFile` appends a file reference to
the current test result's screenshot log. -/
def TestResultsLedger.logScreenshotFile (l : TestResultsLedger)
    (fileName : String) : TestResultsLedger :=
  { l with currentTestResult :=
      { l.currentTestResult with
          screenshots := l.currentTestResult.screenshots ++ [fileName] } }

/-- Screenshot settings (`settings.screenshots`), possibly absent as a
whole on the settings object. -/
structure ScreenshotSettings where
  enabled : Bool
  on_failure : Bool
  on_error : Bool
  path : String
  deriving DecidableEq

/-- The recognized settings flags read by the embedded reporter methods. -/
structure Settings where
  unit_tests_mode : Bool
  detailed_output : Bool
  start_session : Bool
  screenshots : Option ScreenshotSettings
  deriving DecidableEq

/-- The per-test context (`context.unitTestsMode`). -/
structure Context where
  unitTestsMode : Bool
  deriving DecidableEq

/-- The reporter state (`class Reporter`, `src/lib/reporter/index.js`):
the settings, the suite retry registry reference (possibly absent), the
current context (possibly absent), and the owned `TestResults` ledger.
The registry is the external collaborator of spec section 4.3, exposing
one query `shouldRetryTest : name -> bool`; it is embedded as a function. -/
structure Reporter where
  settings : Settings
  suiteRetries : Option (String → Bool)
  currentContext : Option Context
  testResults : TestResultsLedger

/-- The object returned by the `currentTest` getter. -/
structure CurrentTestInfo where
  name : String
  module : String
  group : String
  results : TestResultData

/-- `get currentTestCase() { return this.testResults.currentTest; }` -/
def Reporter.currentTestCase (r : Reporter) : Option TestCase :=
  r.testResults.currentTest

/-- The `currentTest` getter: `null` when there is no current test case,
otherwise `{name, module, group, results}` assembled from the ledger. -/
def Reporter.currentTest (r : Reporter) : Option CurrentTestInfo :=
  match r.testResults.currentTest with
  | none => none
  | some tc =>
    some { name := tc.testName
           module := r.testResults.moduleKey
           group := r.testResults.groupName
           results := r.testResults.currentTestResult }

/-- `get unitTestsMode()`: the current context's flag when a context is
set, else `settings.unit_tests_mode`. -/
def Reporter.unitTestsMode (r : Reporter) : Bool :=
  match r.currentContext with
  | some c => c.unitTestsMode
  | none => r.settings.unit_tests_mode

/-- The JS conjunction `this.currentTest && this.suiteRetries &&
this.suiteRetries.shouldRetryTest(this.currentTest.name)`: falsy as soon
as the current test or the registry is absent. -/
def Reporter.shouldRetryTestcase (r : Reporter) : Bool :=
  match r.currentTest, r.suiteRetries with
  | some t, some shouldRetryTest => shouldRetryTest t.name
  | _, _ => false

/-- `shouldIncrementTotalCount(err)` from `src/lib/reporter/index.js`:
start from `err.incrementErrorCount || Utils.isUndefined(err.incrementErrorCount)`,
then force `false` when `err.incrementErrorsNo` is truthy or the current
test case is scheduled for a suite retry. -/
def Reporter.shouldIncrementTotalCount (r : Reporter) (err : ErrObj) : Bool :=
  let incrementTotalCount :=
    jsTruthy err.incrementErrorCount || isUndefined err.incrementErrorCount
  let shouldRetryTestcase := r.shouldRetryTestcase
  if jsTruthy err.incrementErrorsNo || shouldRetryTestcase then false
  else incrementTotalCount

/-- `logAssertResult(result) { this.testResults.logAssertion(result); }` -/
def Reporter.logAssertResult (r : Reporter) (result : AssertionEntry) :
    Reporter :=
  { r with testResults := r.testResults.logAssertion result }

/-- `registerFailed(err)`: `this.testResults.setLastError(err)
.incrementFailedCount(this.shouldIncrementTotalCount(err))`. -/
def Reporter.registerFailed (r : Reporter) (err : ErrObj) : Reporter :=
  { r with testResults :=
      ((r.testResults.setLastError err).incrementFailedCount
        (r.shouldIncrementTotalCount err)) }

/-- Claim C1: `shouldIncrementTotalCount(err)` is true exactly when the
`incrementErrorCount` flag is true or undefined, the `incrementErrorsNo`
flag is not set, and the current test case is not scheduled for retry by
the suite-retry registry; a set `incrementErrorsNo` flag forces the result
to false regardless of retry status. -/
theorem c1_shouldIncrementTotalCount_characterization (r : Reporter)
    (err : ErrObj) :
    (r.shouldIncrementTotalCount err = true ↔
      ((err.incrementErrorCount = some true ∨ err.incrementErrorCount = none) ∧
        err.incrementErrorsNo ≠ some true ∧ r.shouldRetryTestcase = false)) ∧
    (err.incrementErrorsNo = some true →
      r.shouldIncrementTotalCount err = false) := by
  rcases err with ⟨iec, ien, dl⟩
  cases hsr : r.shouldRetryTestcase <;>
    rcases iec with _ | _ | _ <;> rcases ien with _ | _ | _ <;>
      simp_all [Reporter.shouldIncrementTotalCount, jsTruthy, isUndefined]

/-- Witness for C1 at a concrete input: an error with both flags undefined
and no retry scheduled is counted. -/
theorem c1_witness :
    Reporter.shouldIncrementTotalCount
      { settings := { unit_tests_mode := false, detailed_output := true,
                      start_session := true, screenshots := none }
        suiteRetries := none
        currentContext := none
        testResults := { moduleKey := "demo", groupName := "",
                         currentTest := some { testName := "sampleTest" },
                         currentTestResult :=
                           { passed := 0, failed := 0, errors := 0, skipped := 0,
                             tests := 0, assertions := [], screenshots := [],
                             lastError := none } } }
      { incrementErrorCount := none, incrementErrorsNo := none,
        detailedLogging := none } = true :=
  (c1_shouldIncrementTotalCount_characterization _ _).1.mpr
    ⟨Or.inr rfl, by decide, rfl⟩

/-- Claim C9: retry-based suppression needs both a current test case and a
supplied registry; if either is absent, an error with `incrementErrorCount`
and `incrementErrorsNo` undefined is counted, even when the registry (when
present) schedules every test name for retry. -/
theorem c9_retry_suppression_requires_registry (r : Reporter) (err : ErrObj)
    (h : r.testResults.currentTest = none ∨ r.suiteRetries = none)
    (h1 : err.incrementErrorCount = none)
    (h2 : err.incrementErrorsNo = none) :
    r.shouldIncrementTotalCount err = true := by
  have hretry : r.shouldRetryTestcase = false := by
    rcases h with h | h
    · simp [Reporter.shouldRetryTestcase, Reporter.currentTest, h]
    · rcases hct : r.testResults.currentTest with _ | tc <;>
        simp [Reporter.shouldRetryTestcase, Reporter.currentTest, h, hct]
  simp [Reporter.shouldIncrementTotalCount, hretry, h1, h2, jsTruthy,
    isUndefined]

/-- Witness for C9: no current test case, a registry that schedules every
name for retry, both error flags undefined; the error is still counted. -/
theorem c9_witness :
    Reporter.shouldIncrementTotalCount
      { settings := { unit_tests_mode := false, detailed_output := true,
                      start_session := true, screenshots := none }
        suiteRetries := some (fun _ => true)
        currentContext := none
        testResults := { moduleKey := "demo", groupName := "",
                         currentTest := none,
                         currentTestResult :=
                           { passed := 0, failed := 0, errors := 0, skipped := 0,
                             tests := 0, assertions := [], screenshots := [],
                             lastError := none } } }
      { incrementErrorCount := none, incrementErrorsNo := none,
        detailedLogging := none } = true :=
  c9_retry_suppression_requires_registry _ _ (Or.inl rfl) rfl rfl

/-- Reverse-order worker for `replaceLastComma`: on the reversed character
list, the first comma found (i.e. the last comma of the original string) is
replaced by the reversal of " and"; all other characters are kept. -/
def replaceLastCommaRevAux : List Char → List Char
  | [] => []
  | c :: rest =>
    if c = ',' then 'd' :: 'n' :: 'a' :: ' ' :: rest
    else c :: replaceLastCommaRevAux rest

/-- Embedding of `.replace(/,([^,]*)$/g, (p0, p1) => ` and ${p1}`)` from
`getFailureMessage`: since `[^,]*` anchored at the end matches no comma,
the regex matches exactly the last comma of the string, which is replaced
by " and" (keeping everything after it). Strings without a comma are
unchanged. -/
def replaceLastComma (s : String) : String :=
  ⟨(replaceLastCommaRevAux s.data.reverse).reverse⟩

/-- The four conditional segments pushed onto `failureMsg` by
`getFailureMessage` in `src/lib/reporter/index.js` (lines 222-245): one per
nonzero counter, in the order failed, errors, passed, skipped. The
colorization wrappers (`Logger.colors.red` etc.) are the out-of-scope
console-formatting collaborator and are embedded as the identity. -/
def failureMsgSegments (t : TestResultData) : List String :=
  (if t.failed > 0 then [Nat.repr t.failed ++ " assertions failed"] else []) ++
    (if t.errors > 0 then [Nat.repr t.errors ++ " errors"] else []) ++
      (if t.passed > 0 then [Nat.repr t.passed ++ " passed"] else []) ++
        (if t.skipped > 0 then [Nat.repr t.skipped ++ " skipped"] else [])

/-- `getFailureMessage()`: join the pushed segments with ", " and replace
the final comma by " and". -/
def Reporter.getFailureMessage (r : Reporter) : String :=
  replaceLastComma
    (String.intercalate ", " (failureMsgSegments r.testResults.currentTestResult))

/-- Claim C6: when `shouldIncrementTotalCount` is false, `registerFailed`
leaves `counts.failed` unchanged, while the unconditional `logAssertion`
path still appends exactly one entry to the assertion audit log. -/
theorem c6_suppressed_failed_count (r : Reporter) (err : ErrObj)
    (entry : AssertionEntry)
    (h : r.shouldIncrementTotalCount err = false) :
    (r.registerFailed err).testResults.currentTestResult.failed =
      r.testResults.currentTestResult.failed ∧
    (r.logAssertResult entry).testResults.currentTestResult.assertions.length =
      r.testResults.currentTestResult.assertions.length + 1 := by
  constructor
  · simp [Reporter.registerFailed, h, TestResultsLedger.incrementFailedCount,
      TestResultsLedger.setLastError]
  · simp [Reporter.logAssertResult, TestResultsLedger.logAssertion]

/-- A reporter whose current test case is scheduled for retry by the
registry: the suppression scenario of spec section 8, Scenario C. -/
def retryReporter : Reporter :=
  { settings := { unit_tests_mode := false, detailed_output := true,
                  start_session := true, screenshots := none }
    suiteRetries := some (fun _ => true)
    currentContext := none
    testResults := { moduleKey := "mod", groupName := "g",
                     currentTest := some { testName := "flakyTest" },
                     currentTestResult :=
                       { passed := 3, failed := 1, errors := 0, skipped := 0,
                         tests := 2, assertions := [], screenshots := [],
                         lastError := none } } }

/-- An error object with every metadata flag undefined. -/
def plainErr : ErrObj :=
  { incrementErrorCount := none, incrementErrorsNo := none,
    detailedLogging := none }

/-- A sample audit log entry. -/
def sampleEntry : AssertionEntry :=
  { fullMsg := "expected ok", failure := false, stackTrace := "" }

/-- Witness for C6: with the registry scheduling the current test for
retry, `registerFailed` leaves `counts.failed` at 1 while the audit log
grows by one entry. -/
theorem c6_witness :
    (retryReporter.registerFailed plainErr).testResults.currentTestResult.failed =
      retryReporter.testResults.currentTestResult.failed ∧
    (retryReporter.logAssertResult sampleEntry).testResults.currentTestResult.assertions.length =
      retryReporter.testResults.currentTestResult.assertions.length + 1 :=
  c6_suppressed_failed_count retryReporter plainErr sampleEntry (by decide)

/-- Reporter fixture for spec Scenario D: failed=2, errors=1, passed=0,
skipped=1. -/
def scenarioDReporter : Reporter :=
  { settings := { unit_tests_mode := false, detailed_output := true,
                  start_session := true, screenshots := none }
    suiteRetries := none
    currentContext := none
    testResults := { moduleKey := "demo", groupName := "",
                     currentTest := some { testName := "t" },
                     currentTestResult :=
                       { passed := 0, failed := 2, errors := 1, skipped := 1,
                         tests := 1, assertions := [], screenshots := [],
                         lastError := none } } }

/-- Claim C7: with failed=2, errors=1, passed=0, skipped=1, the failure
message joins the nonzero category phrases with commas, turns the final
comma into " and", and therefore ends in "and 1 skipped". -/
theorem c7_failure_message_scenario :
    scenarioDReporter.getFailureMessage =
      "2 assertions failed, 1 errors and 1 skipped" ∧
    ∃ stem, scenarioDReporter.getFailureMessage = stem ++ "and 1 skipped" :=
  ⟨by decide, "2 assertions failed, 1 errors ", by decide⟩

/-- `Nat.digitChar` maps a nonzero digit below ten to a character other
than the zero digit. -/
lemma digitChar_ne_zero_of_pos : ∀ m, m < 10 → 0 < m → Nat.digitChar m ≠ '0' := by
  decide

/-- `Nat.toDigitsCore` with enough fuel produces, for a positive number, a
nonempty character list whose head is not the zero digit (the leading
decimal digit of a positive number is nonzero). -/
lemma toDigitsCore_head_ne_zero :
    ∀ (fuel n : Nat) (ds : List Char), 0 < n → n < fuel →
      ∃ c l, Nat.toDigitsCore 10 fuel n ds = c :: l ∧ c ≠ '0' := by
  intro fuel
  induction fuel with
  | zero => intro n ds hn hf; omega
  | succ f ih =>
    intro n ds hn hf
    by_cases h : n / 10 = 0
    · have hlt : n < 10 := (Nat.div_eq_zero_iff (by norm_num)).mp h
      refine ⟨Nat.digitChar (n % 10), ds, ?_, ?_⟩
      · simp only [Nat.toDigitsCore, h, if_pos]
      · rw [Nat.mod_eq_of_lt hlt]
        exact digitChar_ne_zero_of_pos n hlt hn
    · have hpos : 0 < n / 10 := Nat.pos_of_ne_zero h
      have hflt : n / 10 < f := by
        have h1 : n / 10 < n := Nat.div_lt_self hn (by norm_num)
        omega
      obtain ⟨c, l, hc, hne⟩ := ih (n / 10) (Nat.digitChar (n % 10) :: ds) hpos hflt
      refine ⟨c, l, ?_, hne⟩
      simp only [Nat.toDigitsCore, h, if_neg, ite_false]
      exact hc

/-- The decimal string of a positive number starts with a nonzero digit. -/
lemma repr_head_ne_zero (n : Nat) (hn : 0 < n) :
    ∃ c l, (Nat.repr n).data = c :: l ∧ c ≠ '0' := by
  have h := toDigitsCore_head_ne_zero (n + 1) n [] hn (Nat.lt_succ_self n)
  simpa [Nat.repr, Nat.toDigits, List.asString] using h

/-- Membership in a conditional singleton list forces the condition and
the value. -/
lemma mem_ite_singleton {p : Prop} [Decidable p] {x s : String}
    (h : s ∈ (if p then [x] else ([] : List String))) : p ∧ s = x := by
  split at h
  · exact ⟨by assumption, by simpa using h⟩
  · simp at h

/-- Every segment pushed by `getFailureMessage` renders a positive counter
followed by its category phrase. -/
lemma failureMsgSegments_shape (t : TestResultData) (s : String)
    (hs : s ∈ failureMsgSegments t) :
    ∃ n rest, 0 < n ∧ s = Nat.repr n ++ rest := by
  simp only [failureMsgSegments, List.mem_append] at hs
  rcases hs with ((h | h) | h) | h
  · obtain ⟨hc, rfl⟩ := mem_ite_singleton h
    exact ⟨t.failed, " assertions failed", hc, rfl⟩
  · obtain ⟨hc, rfl⟩ := mem_ite_singleton h
    exact ⟨t.errors, " errors", hc, rfl⟩
  · obtain ⟨hc, rfl⟩ := mem_ite_singleton h
    exact ⟨t.passed, " passed", hc, rfl⟩
  · obtain ⟨hc, rfl⟩ := mem_ite_singleton h
    exact ⟨t.skipped, " skipped", hc, rfl⟩

/-- No segment pushed by `getFailureMessage` starts with the character 0. -/
lemma failureMsgSegments_head_ne_zero (t : TestResultData) (s : String)
    (hs : s ∈ failureMsgSegments t) : s.data.head? ≠ some '0' := by
  obtain ⟨n, rest, hn, rfl⟩ := failureMsgSegments_shape t s hs
  obtain ⟨c, l, hdata, hc⟩ := repr_head_ne_zero n hn
  rw [String.data_append, hdata]
  simp only [List.cons_append, List.head?_cons, ne_eq, Option.some.injEq]
  exact hc

/-- Claim C10: for every combination of counter values, the segment list of
`getFailureMessage` contains no zero-count segment: none of
"0 assertions failed", "0 errors", "0 passed", "0 skipped" ever appears. -/
theorem c10_no_zero_segments (t : TestResultData) :
    "0 assertions failed" ∉ failureMsgSegments t ∧
    "0 errors" ∉ failureMsgSegments t ∧
    "0 passed" ∉ failureMsgSegments t ∧
    "0 skipped" ∉ failureMsgSegments t := by
  refine ⟨fun h => ?_, fun h => ?_, fun h => ?_, fun h => ?_⟩ <;>
    exact failureMsgSegments_head_ne_zero t _ h (by decide)

/-- Witness for C10 at a concrete counter combination. -/
theorem c10_witness :
    "0 assertions failed" ∉
      failureMsgSegments scenarioDReporter.testResults.currentTestResult ∧
    "0 errors" ∉ failureMsgSegments scenarioDReporter.testResults.currentTestResult ∧
    "0 passed" ∉ failureMsgSegments scenarioDReporter.testResults.currentTestResult ∧
    "0 skipped" ∉ failureMsgSegments scenarioDReporter.testResults.currentTestResult :=
  c10_no_zero_segments scenarioDReporter.testResults.currentTestResult

/-- The mutable fields of a `TextAssertion` instance
(`src/lib/api/expect/text.js` plus the base-class fields it reads):
`negate`, the remaining retry budget `retries`, `passed`, the configured
timeout budget `waitForMs` (0 when none was configured, matching JS
falsiness), `elapsedTime`, the accumulated `messageParts`, and the
current time since the first attempt `timeNow` (what `getElapsedTime`
returns). -/
structure TAState where
  negate : Bool
  retries : Nat
  passed : Bool
  waitForMs : Nat
  elapsedTime : Nat
  messageParts : List String
  timeNow : Nat
  deriving DecidableEq

/-- Modelled from the spec: `hasCondition()` lives in the expect base class
(`_baseAssertion.js`, not among the sources); per spec section 4.1 the
"condition was met" wording applies exactly when a timeout budget was
configured, so the query is `waitForMs` being set. -/
def hasCondition (s : TAState) : Bool := s.waitForMs != 0

/-- Modelled from the spec: `getElapsedTime()` of the base class returns
the time elapsed since the first attempt. -/
def getElapsedTime (s : TAState) : Nat := s.timeNow

/-- `TextAssertion.prototype.elementFound` (text.js lines 36-49): return
unchanged while `retries > 0 && negate`; otherwise, if the assertion
passed and a timeout budget is set, record the elapsed time and push
" - condition was met in <elapsed>ms" onto the message parts. -/
def elementFound (s : TAState) : TAState :=
  if s.retries != 0 && s.negate then s
  else if s.passed && s.waitForMs != 0 then
    { s with
        elapsedTime := getElapsedTime s
        messageParts := s.messageParts ++
          [" - " ++ (if hasCondition s then "condition was met" else "") ++
            " in " ++ Nat.repr (getElapsedTime s) ++ "ms"] }
  else s

/-- `TextAssertion.prototype.elementNotFound` (text.js lines 51-53):
`this.passed = false`. -/
def elementNotFound (s : TAState) : TAState := { s with passed := false }

/-- The cause recorded with a terminal outcome, following the error
taxonomy of spec section 7: condition met, condition definitively not met
after the budget, or target not resolvable at all (`TargetNotFound`,
distinct from "found but predicate false"). -/
inductive TermCause where
  | met
  | notMet
  | targetAbsent
  deriving DecidableEq

/-- The outcome of one assertion evaluation (spec section 4.1:
`Outcome{passed, timedOut, elapsedMs, messageParts}`), extended with the
terminal cause of section 7. -/
structure Outcome where
  passed : Bool
  timedOut : Bool
  elapsedMs : Nat
  messageParts : List String
  cause : TermCause
  deriving DecidableEq

/-- The static configuration of one assertion run: negation, the timeout
budget, the poll interval, and the text predicate (equals/contains/match,
embedded as a boolean function on the observed text). -/
structure EngineConfig where
  negate : Bool
  waitForMs : Nat
  pollIntervalMs : Nat
  cond : String → Bool

/-- Modelled from the spec: the poll loop of the expect base class
(`_baseAssertion.js` is not among the sources), spec section 4.1.
`retries` is the remaining retry budget, `k` the current poll index (the
poll happens at time `k * pollIntervalMs`), `obs k` the remote check's
report for poll `k` (`none` = target absent). On a found target the
condition is applied, `passed := condition != negate`, and the
`elementFound` hook of text.js runs; a passing poll is terminal, a
non-passing one retries until the budget is exhausted (`FAILED`/
`TIMED_OUT`). On an absent target the outcome is immediately terminal:
a pass for a negated assertion, otherwise the `elementNotFound` hook sets
`passed = false` (`TargetNotFound`), without consuming the retry budget. -/
def runAssertion (cfg : EngineConfig) (obs : Nat → Option String) :
    Nat → Nat → TAState → Outcome
  | retries, k, s0 =>
    let s := { s0 with timeNow := k * cfg.pollIntervalMs, retries := retries }
    match obs k with
    | none =>
      if s.negate then
        { passed := true, timedOut := false, elapsedMs := s.timeNow,
          messageParts := s.messageParts, cause := .targetAbsent }
      else
        let s1 := elementNotFound s
        { passed := s1.passed, timedOut := false, elapsedMs := s1.timeNow,
          messageParts := s1.messageParts, cause := .targetAbsent }
    | some text =>
      let s1 := elementFound { s with passed := cfg.cond text != s.negate }
      if s1.passed then
        { passed := true, timedOut := false, elapsedMs := s1.timeNow,
          messageParts := s1.messageParts, cause := .met }
      else
        match retries with
        | 0 =>
          { passed := false, timedOut := true, elapsedMs := s1.timeNow,
            messageParts := s1.messageParts, cause := .notMet }
        | r + 1 => runAssertion cfg obs r (k + 1) s1

/-- Modelled from the spec: the number of retries that fit in the timeout
budget (spec section 8, Scenario B: budget 500ms at 100ms polls makes
about five attempts). -/
def initialRetries (cfg : EngineConfig) : Nat :=
  cfg.waitForMs / cfg.pollIntervalMs

/-- The initial assertion state: nothing passed yet, no message parts, the
negation and timeout budget copied from the configuration. -/
def initState (cfg : EngineConfig) : TAState :=
  { negate := cfg.negate, retries := initialRetries cfg, passed := false,
    waitForMs := cfg.waitForMs, elapsedTime := 0, messageParts := [],
    timeNow := 0 }

/-- `evaluate(assertion)`: run the poll loop from time zero with the full
retry budget. -/
def evaluate (cfg : EngineConfig) (obs : Nat → Option String) : Outcome :=
  runAssertion cfg obs (initialRetries cfg) 0 (initState cfg)

/-- The `elementFound` hook never changes the `passed` flag. -/
lemma elementFound_passed (s : TAState) : (elementFound s).passed = s.passed := by
  unfold elementFound
  split
  · rfl
  · split <;> rfl

/-- The `elementFound` hook is the identity on an assertion that has not
passed. -/
lemma elementFound_of_not_passed (s : TAState) (h : s.passed = false) :
    elementFound s = s := by
  unfold elementFound
  split
  · rfl
  · split
    · simp_all
    · rfl

/-- Spec-modelled loop, negated assertion: a poll reporting the target
absent terminates the run at once with a pass. -/
lemma runAssertion_absent_negate (cfg : EngineConfig) (obs : Nat → Option String)
    (r k : Nat) (s : TAState) (hneg : s.negate = true) (habs : obs k = none) :
    runAssertion cfg obs r k s =
      { passed := true, timedOut := false, elapsedMs := k * cfg.pollIntervalMs,
        messageParts := s.messageParts, cause := .targetAbsent } := by
  rw [runAssertion]
  simp [habs, hneg]

/-- Spec-modelled loop, non-negated assertion: a poll reporting the target
absent terminates the run at once through the `elementNotFound` hook,
regardless of the remaining retry budget. -/
lemma runAssertion_absent_pos (cfg : EngineConfig) (obs : Nat → Option String)
    (r k : Nat) (s : TAState) (hneg : s.negate = false) (habs : obs k = none) :
    runAssertion cfg obs r k s =
      { passed := false, timedOut := false, elapsedMs := k * cfg.pollIntervalMs,
        messageParts := s.messageParts, cause := .targetAbsent } := by
  rw [runAssertion]
  simp [habs, hneg, elementNotFound]

/-- Spec-modelled loop: a poll whose observed condition equals the negate
flag is not terminal while budget remains; the run continues unchanged at
the next poll index. -/
lemma runAssertion_pending_step (cfg : EngineConfig) (obs : Nat → Option String)
    (r k : Nat) (s : TAState) (t : String) (ht : obs k = some t)
    (hc : cfg.cond t = s.negate) :
    runAssertion cfg obs (r + 1) k s =
      runAssertion cfg obs r (k + 1)
        { s with timeNow := k * cfg.pollIntervalMs, retries := r + 1,
                 passed := false } := by
  rw [runAssertion]
  simp [ht, hc, elementFound_of_not_passed]

/-- Spec-modelled loop: with the budget exhausted, a poll whose observed
condition equals the negate flag is a terminal timeout failure. -/
lemma runAssertion_timeout (cfg : EngineConfig) (obs : Nat → Option String)
    (k : Nat) (s : TAState) (t : String) (ht : obs k = some t)
    (hc : cfg.cond t = s.negate) :
    runAssertion cfg obs 0 k s =
      { passed := false, timedOut := true, elapsedMs := k * cfg.pollIntervalMs,
        messageParts := s.messageParts, cause := .notMet } := by
  rw [runAssertion]
  simp [ht, hc, elementFound_of_not_passed]

/-- Spec-modelled loop, non-negated assertion with a timeout budget
configured: a poll observing the condition true is a terminal pass and the
`elementFound` hook appends the timing message part. -/
lemma runAssertion_pass_found (cfg : EngineConfig) (obs : Nat → Option String)
    (r k : Nat) (s : TAState) (t : String) (ht : obs k = some t)
    (hneg : s.negate = false) (hc : cfg.cond t = true) (hw : s.waitForMs ≠ 0) :
    runAssertion cfg obs r k s =
      { passed := true, timedOut := false, elapsedMs := k * cfg.pollIntervalMs,
        messageParts := s.messageParts ++
          [" - condition was met in " ++ Nat.repr (k * cfg.pollIntervalMs) ++ "ms"],
        cause := .met } := by
  have hlit : ((" - " ++ "condition was met") ++ " in " : String) =
      " - condition was met in " := by decide
  rw [runAssertion]
  simp [ht, hc, hneg, elementFound, hasCondition, getElapsedTime, hw,
    String.append_assoc, hlit]

/-- Spec-modelled loop, negated assertion: when every poll before index `n`
observes a target and poll `n` reports the target absent within the
budget, the run passes. -/
lemma run_passes_of_eventually_absent (cfg : EngineConfig)
    (obs : Nat → Option String) :
    ∀ (n r k : Nat) (s : TAState), s.negate = true →
      (∀ j, j < n → obs (k + j) ≠ none) → obs (k + n) = none → n ≤ r →
      (runAssertion cfg obs r k s).passed = true := by
  intro n
  induction n with
  | zero =>
    intro r k s hneg hpend habs hr
    rw [runAssertion_absent_negate cfg obs r k s hneg (by simpa using habs)]
  | succ m ih =>
    intro r k s hneg hpend habs hr
    obtain ⟨t, ht⟩ : ∃ t, obs k = some t := by
      have h0 := hpend 0 (Nat.succ_pos m)
      rcases hobs : obs k with _ | t
      · exact absurd (by simpa using hobs) (by simpa using h0)
      · exact ⟨t, rfl⟩
    rcases r with _ | r₁
    · exact absurd hr (by omega)
    by_cases hcond : cfg.cond t = s.negate
    · rw [runAssertion_pending_step cfg obs r₁ k s t ht hcond]
      apply ih r₁ (k + 1) _ (by simp [hneg])
      · intro j hj
        have hp := hpend (j + 1) (by omega)
        rw [show (k + 1) + j = k + (j + 1) from by omega]
        exact hp
      · rw [show (k + 1) + m = k + (m + 1) from by omega]
        exact habs
      · omega
    · have hb : (cfg.cond t != s.negate) = true := by
        simp [bne_iff_ne]
        exact hcond
      rw [runAssertion]
      simp [ht, hb, elementFound_passed]

/-- Spec-modelled loop, negated assertion: when every poll through the
whole budget observes the condition still true, the run ends as a timed
out failure. -/
lemma run_times_out_of_always_present (cfg : EngineConfig)
    (obs : Nat → Option String) :
    ∀ (r k : Nat) (s : TAState), s.negate = true →
      (∀ j, j ≤ r → ∃ t, obs (k + j) = some t ∧ cfg.cond t = true) →
      (runAssertion cfg obs r k s).passed = false ∧
        (runAssertion cfg obs r k s).timedOut = true := by
  intro r
  induction r with
  | zero =>
    intro k s hneg hp
    obtain ⟨t, ht, hc⟩ := hp 0 (Nat.le_refl 0)
    rw [runAssertion_timeout cfg obs k s t (by simpa using ht) (by rw [hc, hneg])]
    exact ⟨rfl, rfl⟩
  | succ m ih =>
    intro k s hneg hp
    obtain ⟨t, ht, hc⟩ := hp 0 (Nat.zero_le _)
    rw [runAssertion_pending_step cfg obs m k s t (by simpa using ht)
      (by rw [hc, hneg])]
    apply ih (k + 1) _ (by simp [hneg])
    intro j hj
    obtain ⟨u, hu, hcu⟩ := hp (j + 1) (by omega)
    refine ⟨u, ?_, hcu⟩
    rw [show (k + 1) + j = k + (j + 1) from by omega]
    exact hu

/-- Spec-modelled loop, non-negated assertion with a timeout budget: when
every poll before `n` observes the condition false and poll `n` observes
it true within the budget, the run passes and the timing message part is
appended. -/
lemma run_annotates_on_pass (cfg : EngineConfig) (obs : Nat → Option String) :
    ∀ (n r k : Nat) (s : TAState) (t : String),
      s.negate = false → s.waitForMs ≠ 0 →
      (∀ j, j < n → ∃ u, obs (k + j) = some u ∧ cfg.cond u = false) →
      obs (k + n) = some t → cfg.cond t = true → n ≤ r →
      runAssertion cfg obs r k s =
        { passed := true, timedOut := false,
          elapsedMs := (k + n) * cfg.pollIntervalMs,
          messageParts := s.messageParts ++
            [" - condition was met in " ++
              Nat.repr ((k + n) * cfg.pollIntervalMs) ++ "ms"],
          cause := .met } := by
  intro n
  induction n with
  | zero =>
    intro r k s t hneg hw hpend ht hc hr
    rw [runAssertion_pass_found cfg obs r k s t (by simpa using ht) hneg hc hw]
    simp
  | succ m ih =>
    intro r k s t hneg hw hpend ht hc hr
    obtain ⟨u, hu, hcu⟩ := hpend 0 (Nat.succ_pos m)
    rcases r with _ | r₁
    · exact absurd hr (by omega)
    rw [runAssertion_pending_step cfg obs r₁ k s u (by simpa using hu)
      (by rw [hcu, hneg])]
    have hpend' : ∀ j, j < m →
        ∃ v, obs ((k + 1) + j) = some v ∧ cfg.cond v = false := by
      intro j hj
      obtain ⟨v, hv, hcv⟩ := hpend (j + 1) (by omega)
      refine ⟨v, ?_, hcv⟩
      rw [show (k + 1) + j = k + (j + 1) from by omega]
      exact hv
    have ht' : obs ((k + 1) + m) = some t := by
      rw [show (k + 1) + m = k + (m + 1) from by omega]
      exact ht
    rw [ih r₁ (k + 1)
      { s with timeNow := k * cfg.pollIntervalMs, retries := r₁ + 1,
               passed := false }
      t (by simp [hneg]) (by simpa using hw) hpend' ht' hc (by omega)]
    simp [show (k + 1) + m = k + (m + 1) from by omega]

/-- Claim C2: for every negated assertion where the remote check reports
the target absent before the timeout budget is exhausted (all earlier
polls observed a target), the terminal outcome has `passed = true`. -/
theorem c2_negated_absent_passes (cfg : EngineConfig)
    (obs : Nat → Option String) (n : Nat) (hneg : cfg.negate = true)
    (hpend : ∀ j, j < n → obs j ≠ none) (habs : obs n = none)
    (hbudget : n ≤ initialRetries cfg) :
    (evaluate cfg obs).passed = true := by
  unfold evaluate
  apply run_passes_of_eventually_absent cfg obs n (initialRetries cfg) 0
    (initState cfg) (by simp [initState, hneg])
  · intro j hj
    simpa using hpend j hj
  · simpa using habs
  · exact hbudget

/-- Witness for C2: a negated `equals "X"` assertion with budget 500ms at
100ms polls, target present for two polls and then absent, passes. -/
theorem c2_witness :
    (evaluate
      { negate := true, waitForMs := 500, pollIntervalMs := 100,
        cond := fun t => t == "X" }
      (fun j => if j < 2 then some "X" else none)).passed = true :=
  c2_negated_absent_passes _ _ 2 rfl (by decide) (by decide) (by decide)

/-- Claim C3: a call to `elementFound` on a negated assertion with retry
budget remaining leaves the assertion state (in particular `passed`,
`elapsedTime`, `messageParts`) unchanged, and a negated assertion whose
target is observed with the condition still true on every poll through
the budget only fails terminally once the budget is exhausted
(`FAILED`/`TIMED_OUT`). -/
theorem c3_negated_present_retry (cfg : EngineConfig)
    (obs : Nat → Option String) (s : TAState)
    (h1 : s.retries ≠ 0) (h2 : s.negate = true) (hneg : cfg.negate = true)
    (hp : ∀ j, j ≤ initialRetries cfg →
      ∃ t, obs j = some t ∧ cfg.cond t = true) :
    elementFound s = s ∧
    (evaluate cfg obs).passed = false ∧ (evaluate cfg obs).timedOut = true := by
  refine ⟨?_, ?_⟩
  · unfold elementFound
    simp [h1, h2]
  · unfold evaluate
    apply run_times_out_of_always_present cfg obs (initialRetries cfg) 0
      (initState cfg) (by simp [initState, hneg])
    intro j hj
    simpa using hp j hj

/-- Witness for C3: concrete negated assertion state with three retries
remaining is untouched by `elementFound`, and a target observed equal to
"X" on every poll times out. -/
theorem c3_witness :
    elementFound
      { negate := true, retries := 3, passed := false, waitForMs := 500,
        elapsedTime := 0, messageParts := [], timeNow := 0 } =
      { negate := true, retries := 3, passed := false, waitForMs := 500,
        elapsedTime := 0, messageParts := [], timeNow := 0 } ∧
    (evaluate
      { negate := true, waitForMs := 500, pollIntervalMs := 100,
        cond := fun t => t == "X" } (fun _ => some "X")).passed = false ∧
    (evaluate
      { negate := true, waitForMs := 500, pollIntervalMs := 100,
        cond := fun t => t == "X" } (fun _ => some "X")).timedOut = true :=
  c3_negated_present_retry _ _ _ (by decide) rfl rfl
    (fun j _ => ⟨"X", rfl, rfl⟩)

/-- Claim C4: when the remote lookup cannot resolve a target at all, the
`elementNotFound` handler sets `passed = false`; for a non-negated
assertion the run ends at that poll with `passed = false` without
consuming any remaining retry budget (the result does not depend on the
budget), and the recorded cause `TargetNotFound` is distinct from the
found-but-condition-false terminal cause. -/
theorem c4_not_found_immediate (cfg : EngineConfig)
    (obs : Nat → Option String) (r k : Nat) (s s2 : TAState)
    (hneg : s.negate = false) (habs : obs k = none) :
    (elementNotFound s2).passed = false ∧
    runAssertion cfg obs r k s =
      { passed := false, timedOut := false, elapsedMs := k * cfg.pollIntervalMs,
        messageParts := s.messageParts, cause := .targetAbsent } ∧
    runAssertion cfg obs r k s = runAssertion cfg obs 0 k s ∧
    TermCause.targetAbsent ≠ TermCause.notMet := by
  refine ⟨rfl, runAssertion_absent_pos cfg obs r k s hneg habs, ?_, by decide⟩
  rw [runAssertion_absent_pos cfg obs r k s hneg habs,
    runAssertion_absent_pos cfg obs 0 k s hneg habs]

/-- Witness for C4: a non-negated assertion whose second poll cannot
resolve the target fails immediately with the distinct cause, with any
retry budget left. -/
theorem c4_witness :
    (elementNotFound
      { negate := false, retries := 2, passed := true, waitForMs := 500,
        elapsedTime := 0, messageParts := [], timeNow := 0 }).passed = false ∧
    runAssertion
      { negate := false, waitForMs := 500, pollIntervalMs := 100,
        cond := fun t => t == "X" } (fun _ => none) 4 1
      { negate := false, retries := 4, passed := false, waitForMs := 500,
        elapsedTime := 0, messageParts := [], timeNow := 0 } =
      { passed := false, timedOut := false, elapsedMs := 1 * 100,
        messageParts := [], cause := .targetAbsent } ∧
    runAssertion
      { negate := false, waitForMs := 500, pollIntervalMs := 100,
        cond := fun t => t == "X" } (fun _ => none) 4 1
      { negate := false, retries := 4, passed := false, waitForMs := 500,
        elapsedTime := 0, messageParts := [], timeNow := 0 } =
      runAssertion
        { negate := false, waitForMs := 500, pollIntervalMs := 100,
          cond := fun t => t == "X" } (fun _ => none) 0 1
        { negate := false, retries := 4, passed := false, waitForMs := 500,
          elapsedTime := 0, messageParts := [], timeNow := 0 } ∧
    TermCause.targetAbsent ≠ TermCause.notMet :=
  c4_not_found_immediate _ _ 4 1 _ _ rfl rfl

/-- The negated configuration of the C5 counterexample: budget 500ms at
100ms polls, text expected to not equal "X". -/
def cfgC5 : EngineConfig :=
  { negate := true, waitForMs := 500, pollIntervalMs := 100,
    cond := fun t => t == "X" }

/-- Observations for the C5 counterexample: the text equals "X" on the
first poll and differs from the second poll on. -/
def obsC5 : Nat → Option String :=
  fun j => if j = 0 then some "X" else some "Y"

/-- Counterexample to claim C5 as stated: this negated assertion reaches
`passed = true` with a non-zero timeout budget configured, yet its message
parts receive no "condition was met" timing entry, because the
`elementFound` hook returns early while `retries > 0 && negate`. -/
theorem c5_counterexample :
    (evaluate cfgC5 obsC5).passed = true ∧ cfgC5.waitForMs ≠ 0 ∧
    (evaluate cfgC5 obsC5).messageParts = [] :=
  ⟨by decide, by decide, by decide⟩

/-- Claim C5 (amended): for every non-negated assertion that reaches the
`PASSED` outcome via the found path with a non-zero timeout budget
configured, the message parts are extended with
" - condition was met in <elapsedMs>ms" carrying the measured elapsed
time; for a negated assertion passing while retry budget remains, no such
entry is added. -/
theorem c5_amended_pass_annotates (cfg : EngineConfig)
    (obs : Nat → Option String) (n : Nat) (t : String)
    (hneg : cfg.negate = false) (hw : cfg.waitForMs ≠ 0)
    (hpend : ∀ j, j < n → ∃ u, obs j = some u ∧ cfg.cond u = false)
    (ht : obs n = some t) (hc : cfg.cond t = true)
    (hbudget : n ≤ initialRetries cfg) :
    evaluate cfg obs =
      { passed := true, timedOut := false,
        elapsedMs := n * cfg.pollIntervalMs,
        messageParts := [" - condition was met in " ++
          Nat.repr (n * cfg.pollIntervalMs) ++ "ms"],
        cause := .met } := by
  unfold evaluate
  rw [run_annotates_on_pass cfg obs n (initialRetries cfg) 0 (initState cfg) t
    (by simp [initState, hneg]) (by simpa [initState] using hw)
    (by intro j hj; simpa using hpend j hj) (by simpa using ht) hc hbudget]
  simp [initState]

/-- Witness for the amended C5: a non-negated `equals "Night Watch"`
assertion passing on the second poll records
" - condition was met in 100ms". -/
theorem c5_witness :
    evaluate
      { negate := false, waitForMs := 500, pollIntervalMs := 100,
        cond := fun t => t == "Night Watch" }
      (fun j => if j = 0 then some "loading" else some "Night Watch") =
      { passed := true, timedOut := false, elapsedMs := 1 * 100,
        messageParts := [" - condition was met in " ++ Nat.repr (1 * 100) ++ "ms"],
        cause := .met } :=
  c5_amended_pass_annotates _ _ 1 "Night Watch" rfl (by decide)
    (by intro j hj
        refine ⟨"loading", ?_, by decide⟩
        have : j = 0 := by omega
        rw [this]
        rfl)
    rfl rfl (by decide)

/-- `get shouldTakeFailureScreenshot()`: not unit-tests mode, a screenshots
settings object present, and both `enabled` and `on_failure` set. -/
def Reporter.shouldTakeFailureScreenshot (r : Reporter) : Bool :=
  !r.unitTestsMode &&
    (match r.settings.screenshots with
     | some sc => sc.enabled && sc.on_failure
     | none => false)

/-- The observable events of one `saveFailureScreenshot` call, in program
order: the ledger append of the file reference, the request issued to the
external screenshot service, and the service's completion callback. -/
inductive SEvent where
  | ledgerLog (fileName : String)
  | serviceRequest (fileName : String)
  | serviceComplete (fileName : String)
  deriving DecidableEq

/-- `saveFailureScreenshot(isError)` from `src/lib/reporter/index.js`
(lines 272-283): behind the gate, build the file name stem
`module + "/" + name + "-test-" + results.tests`, derive the file name
through the external `Screenshots.getFileName` (embedded as the function
argument `getFileName`), append the file reference to the ledger, and
only then request the screenshot from the external service, returning a
promise resolved by the service's completion callback. Modelled from the
spec: the external service is represented by the emitted event trace and
the flag `completes` saying whether its completion callback ever fires;
`none` is the JS `TypeError` raised when the gate is open but no current
test exists. -/
def Reporter.saveFailureScreenshot (r : Reporter) (isError : Bool)
    (getFileName : String → Bool → String → String) (completes : Bool) :
    Option (Reporter × List SEvent) :=
  if r.shouldTakeFailureScreenshot then
    match r.currentTest, r.settings.screenshots with
    | some ct, some sc =>
      let pfx := ct.module ++ "/" ++ ct.name ++ "-test-" ++
        Nat.repr ct.results.tests
      let fileName := getFileName pfx isError sc.path
      some ({ r with testResults := r.testResults.logScreenshotFile fileName },
        [SEvent.ledgerLog fileName, SEvent.serviceRequest fileName] ++
          (if completes then [SEvent.serviceComplete fileName] else []))
    | _, _ => none
  else some (r, [])

/-- A reporter with screenshot-on-failure enabled, not in unit-tests mode,
attempt index 2. -/
def screenshotReporter : Reporter :=
  { settings := { unit_tests_mode := false, detailed_output := true,
                  start_session := true,
                  screenshots := some { enabled := true, on_failure := true,
                                        on_error := false, path := "shots" } }
    suiteRetries := none
    currentContext := none
    testResults := { moduleKey := "mod", groupName := "g",
                     currentTest := some { testName := "t1" },
                     currentTestResult :=
                       { passed := 0, failed := 1, errors := 0, skipped := 0,
                         tests := 2, assertions := [], screenshots := [],
                         lastError := none } } }

/-- A concrete stand-in for the external `Screenshots.getFileName`. -/
def sampleGetFileName : String → Bool → String → String :=
  fun pfx _ pth => pth ++ "/" ++ pfx ++ ".png"

/-- Counterexample to claim C8 as stated: with the gate open and the
screenshot service never completing (`completes = false`), the ledger has
already gained the file reference and the trace shows the ledger append
before the service request — the logging is not deferred to the
completion of the request. -/
theorem c8_counterexample :
    (screenshotReporter.saveFailureScreenshot false sampleGetFileName
        false).map
      (fun pr => (pr.1.testResults.currentTestResult.screenshots, pr.2)) =
      some (["shots/mod/t1-test-2.png"],
        [SEvent.ledgerLog "shots/mod/t1-test-2.png",
         SEvent.serviceRequest "shots/mod/t1-test-2.png"]) := by
  decide

/-- Claim C8 (amended): when screenshot-on-failure is enabled and the run
is not in unit-tests output mode, `saveFailureScreenshot` derives the file
name from the stem `module + "/" + testName + "-test-" + attemptIndex`
through the external naming helper, logs the resulting file reference to
the ledger immediately, and then requests the screenshot from the external
service, the returned promise resolving upon the service's completion;
when the gate is false it performs no ledger mutation and no service
call. -/
theorem c8_amended_screenshot_flow (r : Reporter) (isError completes : Bool)
    (getFileName : String → Bool → String → String) (tc : TestCase)
    (sc : ScreenshotSettings) (htc : r.testResults.currentTest = some tc)
    (hsc : r.settings.screenshots = some sc) :
    (r.shouldTakeFailureScreenshot = true →
      r.saveFailureScreenshot isError getFileName completes =
        some ({ r with testResults := (r.testResults.logScreenshotFile
                  (getFileName
                    (r.testResults.moduleKey ++ "/" ++ tc.testName ++
                      "-test-" ++ Nat.repr r.testResults.currentTestResult.tests)
                    isError sc.path)) },
          [SEvent.ledgerLog (getFileName
              (r.testResults.moduleKey ++ "/" ++ tc.testName ++ "-test-" ++
                Nat.repr r.testResults.currentTestResult.tests) isError sc.path),
           SEvent.serviceRequest (getFileName
              (r.testResults.moduleKey ++ "/" ++ tc.testName ++ "-test-" ++
                Nat.repr r.testResults.currentTestResult.tests) isError sc.path)] ++
            (if completes then
              [SEvent.serviceComplete (getFileName
                (r.testResults.moduleKey ++ "/" ++ tc.testName ++ "-test-" ++
                  Nat.repr r.testResults.currentTestResult.tests) isError sc.path)]
            else []))) ∧
    (r.shouldTakeFailureScreenshot = false →
      r.saveFailureScreenshot isError getFileName completes = some (r, [])) := by
  constructor
  · intro hgate
    unfold Reporter.saveFailureScreenshot
    simp [hgate, Reporter.currentTest, htc, hsc]
  · intro hgate
    unfold Reporter.saveFailureScreenshot
    simp [hgate]

/-- Witness for the amended C8 at the concrete reporter, for both the
completing service and the gate-closed reporter variant. -/
theorem c8_witness :
    screenshotReporter.saveFailureScreenshot false sampleGetFileName true =
      some ({ screenshotReporter with
              testResults := (screenshotReporter.testResults.logScreenshotFile
                (sampleGetFileName
                  (screenshotReporter.testResults.moduleKey ++ "/" ++ "t1" ++
                    "-test-" ++
                    Nat.repr screenshotReporter.testResults.currentTestResult.tests)
                  false "shots")) },
        [SEvent.ledgerLog (sampleGetFileName
            (screenshotReporter.testResults.moduleKey ++ "/" ++ "t1" ++
              "-test-" ++
              Nat.repr screenshotReporter.testResults.currentTestResult.tests)
            false "shots"),
         SEvent.serviceRequest (sampleGetFileName
            (screenshotReporter.testResults.moduleKey ++ "/" ++ "t1" ++
              "-test-" ++
              Nat.repr screenshotReporter.testResults.currentTestResult.tests)
            false "shots")] ++
          (if true then
            [SEvent.serviceComplete (sampleGetFileName
              (screenshotReporter.testResults.moduleKey ++ "/" ++ "t1" ++
                "-test-" ++
                Nat.repr screenshotReporter.testResults.currentTestResult.tests)
              false "shots")]
          else [])) :=
  (c8_amended_screenshot_flow screenshotReporter false true sampleGetFileName
    { testName := "t1" }
    { enabled := true, on_failure := true, on_error := false, path := "shots" }
    rfl rfl).1 rfl
